import Mathlib

/-!
Verification of the HTTP/2-class WINDOW_UPDATE frame codec
(`src/http/src/h2/proto/window_update.rs`) against its specification.

The source file defines the `WindowUpdate` struct with `new`, `stream_id`,
`size_increment`, `load` and `encode`.  Its two rejection branches currently
execute `todo!()` (a panic); the intended error returns are present in the
source only as comments.  The `Head`, `StreamId` and `unpack_octets_4!`
helpers live outside the excerpt and are modelled from the spec where noted.
-/

namespace XitcaH2

/-- One octet on the wire, kept as a natural number; a well-formed octet is `< 256`. -/
abbrev Octet := Nat

/-- Modelled from the spec: `StreamId` (`stream_id.rs` is outside the excerpt) is a
31-bit unsigned stream identifier carried in a 32-bit field whose top bit is reserved.
The raw 32-bit carrier value is kept. -/
abbrev StreamId := Nat

/-- Frame kinds of the multiplexing protocol (spec data model: tagged union over
kinds).  Only `windowUpdate` occurs in the excerpted source.  The wire codes follow
the published protocol, with WINDOW_UPDATE = 8 fixed by the spec's concrete
scenario A (type octet `08`). -/
inductive Kind where
  | data
  | headers
  | priority
  | reset
  | settings
  | pushPromise
  | ping
  | goAway
  | windowUpdate
  | continuation
  | unknown (code : Nat)
deriving DecidableEq, Repr

/-- Modelled from the spec: the numeric type octet of a frame kind. -/
def Kind.toByte : Kind → Nat
  | .data => 0
  | .headers => 1
  | .priority => 2
  | .reset => 3
  | .settings => 4
  | .pushPromise => 5
  | .ping => 6
  | .goAway => 7
  | .windowUpdate => 8
  | .continuation => 9
  | .unknown code => code

/-- Modelled from the spec: decoding a type octet back to a frame kind. -/
def Kind.ofByte (b : Nat) : Kind :=
  if b = 0 then .data
  else if b = 1 then .headers
  else if b = 2 then .priority
  else if b = 3 then .reset
  else if b = 4 then .settings
  else if b = 5 then .pushPromise
  else if b = 6 then .ping
  else if b = 7 then .goAway
  else if b = 8 then .windowUpdate
  else if b = 9 then .continuation
  else .unknown b

/-- `BufMut::put_u8`: append one octet to the output buffer. -/
def put_u8 (dst : List Octet) (b : Nat) : List Octet :=
  dst ++ [b % 256]

/-- `BufMut::put_uint(n, 3)`: append `n` as a 3-octet big-endian integer. -/
def put_uint3 (dst : List Octet) (n : Nat) : List Octet :=
  dst ++ [n / 2 ^ 16 % 256, n / 2 ^ 8 % 256, n % 256]

/-- `BufMut::put_u32`: append `n` as a 4-octet big-endian integer
(truncated to 32 bits, as the Rust argument is a `u32`). -/
def put_u32 (dst : List Octet) (n : Nat) : List Octet :=
  dst ++ [n / 2 ^ 24 % 256, n / 2 ^ 16 % 256, n / 2 ^ 8 % 256, n % 256]

/-- Modelled from the spec: the frame head (`head.rs` is outside the excerpt) carries
the frame kind, the 8-bit flags and the stream id; the 9-octet wire header is
24-bit length, 8-bit type, 8-bit flags, 1 reserved bit + 31-bit stream id. -/
structure Head where
  kind : Kind
  flag : Nat
  streamId : Nat
deriving DecidableEq, Repr

/-- `Head::new(kind, flag, stream_id)`. -/
def Head.new (kind : Kind) (flag : Nat) (streamId : StreamId) : Head :=
  { kind := kind, flag := flag, streamId := streamId }

/-- `Head::stream_id()`. -/
def Head.stream_id (h : Head) : Nat :=
  h.streamId

/-- Modelled from the spec: `Head::encode(payload_len, dst)` writes the 9-octet
header: 24-bit big-endian payload length, the type octet, the flags octet, and the
stream id as a 4-octet big-endian integer. -/
def Head.encode (h : Head) (payload_len : Nat) (dst : List Octet) : List Octet :=
  put_u32 (put_u8 (put_u8 (put_uint3 dst payload_len) h.kind.toByte) h.flag) h.streamId

/-- Modelled from the spec: the `unpack_octets_4!` macro (defined outside the
excerpt) reads four octets at `offset` as a 32-bit big-endian unsigned integer by
shifting and or-ing the octets. -/
def unpack_octets_4 (payload : List Octet) (offset : Nat) : Nat :=
  payload.getD offset 0 <<< 24 ||| payload.getD (offset + 1) 0 <<< 16 |||
    payload.getD (offset + 2) 0 <<< 8 ||| payload.getD (offset + 3) 0

/-- `const SIZE_INCREMENT_MASK: u32 = 1 << 31`. -/
def SIZE_INCREMENT_MASK : Nat := 1 <<< 31

/-- The 32-bit complement `!SIZE_INCREMENT_MASK` applied by `load`. -/
def SIZE_INCREMENT_MASK_NOT : Nat := 2 ^ 32 - 1 - SIZE_INCREMENT_MASK

/-- The `WindowUpdate` frame: stream id plus window size increment. -/
structure WindowUpdate where
  stream_id : Nat
  size_increment : Nat
deriving DecidableEq, Repr

/-- `WindowUpdate::new(stream_id, size_increment)`: bare construction, no checks. -/
def WindowUpdate.new (stream_id : StreamId) (size_increment : Nat) : WindowUpdate :=
  { stream_id := stream_id, size_increment := size_increment }

/-- Outcome of `WindowUpdate::load`.  The two rejection branches of the source
execute `todo!()`, which panics; `panicked` models that outcome.  The error
returns (`Err(Error::BadFrameSize)`, `Err(Error::InvalidWindowUpdateValue)`)
exist in the source only as commented-out code. -/
inductive LoadResult where
  | ok (frame : WindowUpdate)
  | panicked
deriving DecidableEq, Repr

/-- `WindowUpdate::load(head, payload)`: reject (currently: panic via `todo!()`)
unless the payload is exactly 4 octets; clear the reserved top bit of the 32-bit
big-endian value; reject (currently: panic via `todo!()`) a zero increment. -/
def WindowUpdate.load (head : Head) (payload : List Octet) : LoadResult :=
  if payload.length ≠ 4 then
    LoadResult.panicked
  else
    let size_increment := unpack_octets_4 payload 0 &&& SIZE_INCREMENT_MASK_NOT
    if size_increment = 0 then
      LoadResult.panicked
    else
      LoadResult.ok { stream_id := head.stream_id, size_increment := size_increment }

/-- `WindowUpdate::encode(dst)`: write the head (kind WINDOW_UPDATE, flags 0,
this frame's stream id, payload length 4) then the increment as a 32-bit
big-endian integer. -/
def WindowUpdate.encode (w : WindowUpdate) (dst : List Octet) : List Octet :=
  put_u32 (Head.encode (Head.new Kind.windowUpdate 0 w.stream_id) 4 dst) w.size_increment

/-- The spec's reading of a 4-octet payload, stated from the spec's words
("interpreted as a 32-bit big-endian unsigned integer") in arithmetic form,
for comparison with the source's `unpack_octets_4`. -/
def specBe32 (payload : List Octet) : Nat :=
  payload.getD 0 0 * 2 ^ 24 + payload.getD 1 0 * 2 ^ 16 +
    payload.getD 2 0 * 2 ^ 8 + payload.getD 3 0

/-- A natural number below `2^32` written as four big-endian octets
(spec-side description of a 32-bit field on the wire). -/
def be4 (n : Nat) : List Octet :=
  [n / 2 ^ 24, n / 2 ^ 16 % 256, n / 2 ^ 8 % 256, n % 256]

/-- A payload with the reserved top bit (bit 31 of the 32-bit value, i.e. bit 7 of
the first octet) cleared. -/
def clearReservedBit : List Octet → List Octet
  | [] => []
  | b :: rest => b % 128 :: rest

/-- Modelled from the spec: the 24-bit big-endian payload length declared in the
first three octets of a frame header. -/
def declaredLen (bytes : List Octet) : Nat :=
  bytes.getD 0 0 * 2 ^ 16 + bytes.getD 1 0 * 2 ^ 8 + bytes.getD 2 0

/-- Modelled from the spec: parsing a 9-octet frame header (`head.rs` is outside
the excerpt): type octet at offset 3, flags octet at offset 4, stream id as a
32-bit big-endian integer at offset 5 with the reserved top bit cleared. -/
def Head.parse (bytes : List Octet) : Head :=
  { kind := Kind.ofByte (bytes.getD 3 0)
    flag := bytes.getD 4 0
    streamId := unpack_octets_4 bytes 5 &&& SIZE_INCREMENT_MASK_NOT }

/-- Modelled from the spec: decoding a whole WINDOW_UPDATE frame from raw octets:
split off the 9-octet header, take the payload whose length the header declares,
then `WindowUpdate::load`. -/
def decodeWindowUpdateFrame (bytes : List Octet) : LoadResult :=
  WindowUpdate.load (Head.parse (bytes.take 9)) ((bytes.drop 9).take (declaredLen bytes))

/-- Maximum flow-control window, `2^31 - 1` (spec data model). -/
def MAX_WINDOW_SIZE : Nat := 2 ^ 31 - 1

/-- Modelled from the spec: flow-control errors are scoped to the stream when the
update targeted a stream (id ≠ 0) and to the connection when it targeted the
connection (id = 0).  The Flow Controller source is outside the excerpt. -/
inductive FlowControlError where
  | streamError
  | connectionError
deriving DecidableEq, Repr

/-- Modelled from the spec: applying one window increment must not push the running
total above `2^31 - 1`; overflow is a flow-control error, scoped to the stream if
the id is nonzero and to the connection if the id is 0. -/
def applyIncrement (streamId : StreamId) (window : Nat) (increment : Nat) :
    Except FlowControlError Nat :=
  if MAX_WINDOW_SIZE < window + increment then
    Except.error
      (if streamId = 0 then FlowControlError.connectionError else FlowControlError.streamError)
  else
    Except.ok (window + increment)

/-- Modelled from the spec: applying a sequence of increments in order; a rejected
increment reports its error and leaves the stored window value unchanged. -/
def applyIncrements (streamId : StreamId) (window : Nat) : List Nat → Nat
  | [] => window
  | increment :: rest =>
    match applyIncrement streamId window increment with
    | Except.ok w => applyIncrements streamId w rest
    | Except.error _ => applyIncrements streamId window rest

/-! ### Helper lemmas -/

/-- Four octets shifted into disjoint positions and or-ed together equal the
big-endian base-256 value. -/
theorem lor_be4 (a b c d : Nat) (ha : a < 256) (hb : b < 256) (hc : c < 256)
    (hd : d < 256) :
    a <<< 24 ||| b <<< 16 ||| c <<< 8 ||| d = ((a * 256 + b) * 256 + c) * 256 + d := by
  rw [Nat.shiftLeft_eq, Nat.shiftLeft_eq, Nat.shiftLeft_eq]
  have h1 : b * 2 ^ 16 < 2 ^ 24 := by omega
  have h2 : c * 2 ^ 8 < 2 ^ 16 := by omega
  have e1 : a * 2 ^ 24 ||| b * 2 ^ 16 = 2 ^ 16 * (2 ^ 8 * a + b) := by
    rw [Nat.mul_comm a (2 ^ 24), ← Nat.mul_add_lt_is_or h1 a]
    omega
  rw [e1]
  have e2 : 2 ^ 16 * (2 ^ 8 * a + b) ||| c * 2 ^ 8 =
      2 ^ 8 * (2 ^ 8 * (2 ^ 8 * a + b) + c) := by
    rw [← Nat.mul_add_lt_is_or h2 (2 ^ 8 * a + b)]
    omega
  rw [e2, ← Nat.mul_add_lt_is_or hd (2 ^ 8 * (2 ^ 8 * a + b) + c)]
  omega

/-- `load` on a 4-octet payload of well-formed octets: the decoded increment is the
big-endian value reduced modulo `2^31`, and the zero check is on that value. -/
theorem load_four (head : Head) (a b c d : Nat) (ha : a < 256) (hb : b < 256)
    (hc : c < 256) (hd : d < 256) :
    WindowUpdate.load head [a, b, c, d] =
      if (((a * 256 + b) * 256 + c) * 256 + d) % 2 ^ 31 = 0 then LoadResult.panicked
      else LoadResult.ok
        { stream_id := head.stream_id
          size_increment := (((a * 256 + b) * 256 + c) * 256 + d) % 2 ^ 31 } := by
  have hv : unpack_octets_4 [a, b, c, d] 0 &&& SIZE_INCREMENT_MASK_NOT
      = (((a * 256 + b) * 256 + c) * 256 + d) % 2 ^ 31 := by
    rw [show unpack_octets_4 [a, b, c, d] 0 = a <<< 24 ||| b <<< 16 ||| c <<< 8 ||| d
          from rfl,
        lor_be4 a b c d ha hb hc hd,
        show SIZE_INCREMENT_MASK_NOT = 2 ^ 31 - 1 from by decide,
        Nat.and_pow_two_sub_one_eq_mod]
  show (if unpack_octets_4 [a, b, c, d] 0 &&& SIZE_INCREMENT_MASK_NOT = 0 then
      LoadResult.panicked
    else LoadResult.ok
      { stream_id := head.stream_id
        size_increment := unpack_octets_4 [a, b, c, d] 0 &&& SIZE_INCREMENT_MASK_NOT }) = _
  rw [hv]

/-- `encode` written out octet by octet. -/
theorem encode_eq (w : WindowUpdate) (dst : List Octet) :
    WindowUpdate.encode w dst =
      dst ++ [0, 0, 4, 8, 0,
        w.stream_id / 2 ^ 24 % 256, w.stream_id / 2 ^ 16 % 256,
        w.stream_id / 2 ^ 8 % 256, w.stream_id % 256,
        w.size_increment / 2 ^ 24 % 256, w.size_increment / 2 ^ 16 % 256,
        w.size_increment / 2 ^ 8 % 256, w.size_increment % 256] := by
  simp [WindowUpdate.encode, Head.encode, Head.new, Head.stream_id, put_u32, put_u8,
    put_uint3, Kind.toByte]

/-- The 4-octet wire payload produced by `encode`. -/
theorem encode_payload (w : WindowUpdate) :
    (WindowUpdate.encode w []).drop 9 =
      [w.size_increment / 2 ^ 24 % 256, w.size_increment / 2 ^ 16 % 256,
       w.size_increment / 2 ^ 8 % 256, w.size_increment % 256] := by
  rw [encode_eq]
  rfl

/-! ### Claim theorems -/

/-- C1: the claim says a zero increment (after clearing the reserved bit) makes
`load` return an error result without panicking; the code instead reaches
`todo!()` and panics on such payloads (both `00 00 00 00` and `80 00 00 00`).
The intended `return Err(Error::InvalidWindowUpdateValue)` is commented out. -/
theorem c1_zero_increment_hits_todo :
    WindowUpdate.load (Head.new Kind.windowUpdate 0 1) [0, 0, 0, 0] =
      LoadResult.panicked ∧
    WindowUpdate.load (Head.new Kind.windowUpdate 0 1) [128, 0, 0, 0] =
      LoadResult.panicked := by
  decide

/-- C2: the claim says a payload whose length is not 4 octets makes `load` return
a framing-size error result without panicking; the code instead reaches `todo!()`
and panics on such payloads (shown for lengths 3 and 5).  The intended
`return Err(Error::BadFrameSize)` is commented out. -/
theorem c2_bad_length_hits_todo :
    WindowUpdate.load (Head.new Kind.windowUpdate 0 1) [0, 0, 1] =
      LoadResult.panicked ∧
    WindowUpdate.load (Head.new Kind.windowUpdate 0 1) [0, 0, 0, 1, 0] =
      LoadResult.panicked := by
  decide

/-- C5: decoding the concrete 13-octet frame
`00 00 04 08 00 00 00 00 01 00 00 00 10` yields the WindowUpdate frame with
stream id 1 and size increment 16. -/
theorem c5_concrete_scenario_a :
    decodeWindowUpdateFrame [0x00, 0x00, 0x04, 0x08, 0x00, 0x00, 0x00, 0x00, 0x01,
      0x00, 0x00, 0x00, 0x10] = LoadResult.ok (WindowUpdate.new 1 16) := by
  decide

/-- C3: round trip: for a valid frame (increment strictly between 0 and `2^31`),
applying `load` to the head built by `encode` and the 4-octet payload `encode`
produced yields `Ok` of the same frame, recovering stream id and increment. -/
theorem c3_encode_load_roundtrip (w : WindowUpdate) (h0 : 0 < w.size_increment)
    (h1 : w.size_increment < 2 ^ 31) :
    WindowUpdate.load (Head.new Kind.windowUpdate 0 w.stream_id)
      ((WindowUpdate.encode w []).drop 9) = LoadResult.ok w := by
  rw [encode_payload,
    load_four _ _ _ _ _ (by omega) (by omega) (by omega) (by omega)]
  have hbe : ((w.size_increment / 2 ^ 24 % 256 * 256 + w.size_increment / 2 ^ 16 % 256)
        * 256 + w.size_increment / 2 ^ 8 % 256) * 256 + w.size_increment % 256
      = w.size_increment := by
    omega
  rw [hbe, Nat.mod_eq_of_lt h1, if_neg (by omega)]
  rfl

/-- Witness for C3 at the frame with stream id 1 and increment 16. -/
theorem c3_encode_load_roundtrip_witness :
    WindowUpdate.load
      (Head.new Kind.windowUpdate 0 (WindowUpdate.new 1 16).stream_id)
      ((WindowUpdate.encode (WindowUpdate.new 1 16) []).drop 9) =
      LoadResult.ok (WindowUpdate.new 1 16) :=
  c3_encode_load_roundtrip (WindowUpdate.new 1 16) (by decide) (by decide)

/-- C4: on any 4-octet payload the decoded increment equals the payload read as a
32-bit big-endian integer with bit 31 cleared, and clearing the reserved top bit
of the payload changes neither the success of `load` nor the decoded frame. -/
theorem c4_reserved_bit_cleared (head : Head) (a b c d : Nat) (ha : a < 256)
    (hb : b < 256) (hc : c < 256) (hd : d < 256) :
    (∀ w, WindowUpdate.load head [a, b, c, d] = LoadResult.ok w →
      w.size_increment = specBe32 [a, b, c, d] % 2 ^ 31) ∧
    WindowUpdate.load head [a, b, c, d] =
      WindowUpdate.load head (clearReservedBit [a, b, c, d]) := by
  have hbe : specBe32 [a, b, c, d] = ((a * 256 + b) * 256 + c) * 256 + d := by
    show a * 2 ^ 24 + b * 2 ^ 16 + c * 2 ^ 8 + d = ((a * 256 + b) * 256 + c) * 256 + d
    ring
  constructor
  · intro w hw
    rw [load_four head a b c d ha hb hc hd] at hw
    by_cases h0 : (((a * 256 + b) * 256 + c) * 256 + d) % 2 ^ 31 = 0
    · rw [if_pos h0] at hw
      exact absurd hw (by simp)
    · rw [if_neg h0] at hw
      simp only [LoadResult.ok.injEq] at hw
      rw [hbe, ← hw]
  · have hclr : clearReservedBit [a, b, c, d] = [a % 128, b, c, d] := rfl
    have hmod : ((((a % 128) * 256 + b) * 256 + c) * 256 + d) % 2 ^ 31
        = (((a * 256 + b) * 256 + c) * 256 + d) % 2 ^ 31 := by
      omega
    rw [hclr, load_four head a b c d ha hb hc hd,
      load_four head (a % 128) b c d (by omega) hb hc hd, hmod]

/-- Witness for C4 at the payload `80 00 00 10`, whose reserved bit is set. -/
theorem c4_reserved_bit_cleared_witness :
    (∀ w, WindowUpdate.load (Head.new Kind.windowUpdate 0 5) [128, 0, 0, 16] =
        LoadResult.ok w →
      w.size_increment = specBe32 [128, 0, 0, 16] % 2 ^ 31) ∧
    WindowUpdate.load (Head.new Kind.windowUpdate 0 5) [128, 0, 0, 16] =
      WindowUpdate.load (Head.new Kind.windowUpdate 0 5)
        (clearReservedBit [128, 0, 0, 16]) :=
  c4_reserved_bit_cleared (Head.new Kind.windowUpdate 0 5) 128 0 0 16
    (by decide) (by decide) (by decide) (by decide)

/-- C6: `encode` is total and appends exactly 13 octets to the buffer: the length
field 4 as three octets, the type octet 8 (WINDOW_UPDATE), the flags octet 0, the
stream id and then the size increment as 4-octet big-endian integers. -/
theorem c6_encode_appends_13_octets (w : WindowUpdate) (dst : List Octet)
    (hs : w.stream_id < 2 ^ 32) (hi : w.size_increment < 2 ^ 32) :
    WindowUpdate.encode w dst =
      dst ++ [0, 0, 4, 8, 0] ++ be4 w.stream_id ++ be4 w.size_increment ∧
    (WindowUpdate.encode w dst).length = dst.length + 13 := by
  have h1 : w.stream_id / 2 ^ 24 % 256 = w.stream_id / 2 ^ 24 := by omega
  have h2 : w.size_increment / 2 ^ 24 % 256 = w.size_increment / 2 ^ 24 := by omega
  constructor
  · rw [encode_eq, be4, be4, h1, h2]
    simp
  · rw [encode_eq]
    simp

/-- Witness for C6 at the frame with stream id 1 and increment 16, empty buffer. -/
theorem c6_encode_appends_13_octets_witness :
    WindowUpdate.encode (WindowUpdate.new 1 16) ([] : List Octet) =
      ([] : List Octet) ++ [0, 0, 4, 8, 0] ++ be4 (WindowUpdate.new 1 16).stream_id ++
        be4 (WindowUpdate.new 1 16).size_increment ∧
    (WindowUpdate.encode (WindowUpdate.new 1 16) ([] : List Octet)).length =
      ([] : List Octet).length + 13 :=
  c6_encode_appends_13_octets (WindowUpdate.new 1 16) [] (by decide) (by decide)

/-- C7 (Flow Controller modelled from the spec): from any window at or below
`2^31 - 1`, no sequence of increments pushes the running total above `2^31 - 1`;
an increment that would exceed it yields a flow-control error, scoped to the
stream or the connection by the stream id, and leaves the window unchanged. -/
theorem c7_window_never_exceeds_max (streamId : StreamId) (window : Nat)
    (incs : List Nat) (h : window ≤ MAX_WINDOW_SIZE) :
    applyIncrements streamId window incs ≤ MAX_WINDOW_SIZE ∧
    (∀ inc, MAX_WINDOW_SIZE < window + inc →
      applyIncrement streamId window inc = Except.error
        (if streamId = 0 then FlowControlError.connectionError
         else FlowControlError.streamError) ∧
      applyIncrements streamId window (inc :: incs) =
        applyIncrements streamId window incs) := by
  constructor
  · induction incs generalizing window with
    | nil => exact h
    | cons inc rest ih =>
      simp only [applyIncrements, applyIncrement]
      by_cases hc : MAX_WINDOW_SIZE < window + inc
      · rw [if_pos hc]
        exact ih window h
      · rw [if_neg hc]
        exact ih (window + inc) (by omega)
  · intro inc hinc
    refine ⟨?_, ?_⟩
    · unfold applyIncrement
      rw [if_pos hinc]
    · simp only [applyIncrements]
      unfold applyIncrement
      rw [if_pos hinc]

/-- Witness for C7: stream 1 starting at window 0 with the single increment 5. -/
theorem c7_window_never_exceeds_max_witness :
    applyIncrements 1 0 [5] ≤ MAX_WINDOW_SIZE ∧
    (∀ inc, MAX_WINDOW_SIZE < 0 + inc →
      applyIncrement 1 0 inc = Except.error
        (if (1 : StreamId) = 0 then FlowControlError.connectionError
         else FlowControlError.streamError) ∧
      applyIncrements 1 0 (inc :: [5]) = applyIncrements 1 0 [5]) :=
  c7_window_never_exceeds_max 1 0 [5] (by decide)

/-- C8: `new` performs no validation: any stream id and any 32-bit value,
zero and top-bit-set values included, are stored verbatim, and `encode` writes
the increment to the wire unmasked. -/
theorem c8_new_no_validation (id : StreamId) (n : Nat) (hn : n < 2 ^ 32) :
    (WindowUpdate.new id n).stream_id = id ∧
    (WindowUpdate.new id n).size_increment = n ∧
    (WindowUpdate.encode (WindowUpdate.new id n) []).drop 9 = be4 n := by
  refine ⟨rfl, rfl, ?_⟩
  rw [encode_payload]
  show [n / 2 ^ 24 % 256, n / 2 ^ 16 % 256, n / 2 ^ 8 % 256, n % 256] =
    [n / 2 ^ 24, n / 2 ^ 16 % 256, n / 2 ^ 8 % 256, n % 256]
  have h1 : n / 2 ^ 24 % 256 = n / 2 ^ 24 := by omega
  rw [h1]

/-- Witness for C8 at stream id 3 and increment `2^31` (reserved bit set), a
value `load` itself would reject. -/
theorem c8_new_no_validation_witness :
    (WindowUpdate.new 3 (2 ^ 31)).stream_id = 3 ∧
    (WindowUpdate.new 3 (2 ^ 31)).size_increment = 2 ^ 31 ∧
    (WindowUpdate.encode (WindowUpdate.new 3 (2 ^ 31)) []).drop 9 = be4 (2 ^ 31) :=
  c8_new_no_validation 3 (2 ^ 31) (by decide)

/-- C9: `load` reads its head only through the stream id: two heads with the same
stream id but arbitrary kinds and flags give identical results on every payload. -/
theorem c9_load_ignores_kind_and_flags (h1 h2 : Head) (payload : List Octet)
    (hs : h1.stream_id = h2.stream_id) :
    WindowUpdate.load h1 payload = WindowUpdate.load h2 payload := by
  unfold WindowUpdate.load
  rw [hs]

/-- Witness for C9: a WINDOW_UPDATE head with flags 0 and a PING head with flags
255, both on stream 7. -/
theorem c9_load_ignores_kind_and_flags_witness :
    WindowUpdate.load (Head.new Kind.windowUpdate 0 7) [0, 0, 0, 1] =
      WindowUpdate.load (Head.new Kind.ping 255 7) [0, 0, 0, 1] :=
  c9_load_ignores_kind_and_flags (Head.new Kind.windowUpdate 0 7)
    (Head.new Kind.ping 255 7) [0, 0, 0, 1] (by decide)

/-- C10: re-encoding normalizes the reserved bit: for every head and 4-octet
payload that `load` accepts, the wire payload of the loaded frame is the original
payload with bit 31 cleared, and re-loading that payload returns the same frame,
so loading then re-encoding is idempotent at the wire level. -/
theorem c10_reencode_clears_reserved_bit (head : Head) (a b c d : Nat)
    (ha : a < 256) (hb : b < 256) (hc : c < 256) (hd : d < 256) (w : WindowUpdate)
    (hw : WindowUpdate.load head [a, b, c, d] = LoadResult.ok w) :
    (WindowUpdate.encode w []).drop 9 = clearReservedBit [a, b, c, d] ∧
    WindowUpdate.load head ((WindowUpdate.encode w []).drop 9) = LoadResult.ok w := by
  rw [load_four head a b c d ha hb hc hd] at hw
  by_cases h0 : (((a * 256 + b) * 256 + c) * 256 + d) % 2 ^ 31 = 0
  · rw [if_pos h0] at hw
    exact absurd hw (by simp)
  · rw [if_neg h0] at hw
    simp only [LoadResult.ok.injEq] at hw
    subst hw
    have e1 : (((a * 256 + b) * 256 + c) * 256 + d) % 2 ^ 31 / 2 ^ 24 % 256
        = a % 128 := by omega
    have e2 : (((a * 256 + b) * 256 + c) * 256 + d) % 2 ^ 31 / 2 ^ 16 % 256 = b := by
      omega
    have e3 : (((a * 256 + b) * 256 + c) * 256 + d) % 2 ^ 31 / 2 ^ 8 % 256 = c := by
      omega
    have e4 : (((a * 256 + b) * 256 + c) * 256 + d) % 2 ^ 31 % 256 = d := by
      omega
    refine ⟨?_, ?_⟩
    · rw [encode_payload]
      show [(((a * 256 + b) * 256 + c) * 256 + d) % 2 ^ 31 / 2 ^ 24 % 256,
          (((a * 256 + b) * 256 + c) * 256 + d) % 2 ^ 31 / 2 ^ 16 % 256,
          (((a * 256 + b) * 256 + c) * 256 + d) % 2 ^ 31 / 2 ^ 8 % 256,
          (((a * 256 + b) * 256 + c) * 256 + d) % 2 ^ 31 % 256] = [a % 128, b, c, d]
      rw [e1, e2, e3, e4]
    · rw [encode_payload]
      show WindowUpdate.load head
          [(((a * 256 + b) * 256 + c) * 256 + d) % 2 ^ 31 / 2 ^ 24 % 256,
           (((a * 256 + b) * 256 + c) * 256 + d) % 2 ^ 31 / 2 ^ 16 % 256,
           (((a * 256 + b) * 256 + c) * 256 + d) % 2 ^ 31 / 2 ^ 8 % 256,
           (((a * 256 + b) * 256 + c) * 256 + d) % 2 ^ 31 % 256] = _
      rw [e1, e2, e3, e4, load_four head (a % 128) b c d (by omega) hb hc hd]
      have hmod : ((((a % 128) * 256 + b) * 256 + c) * 256 + d) % 2 ^ 31
          = (((a * 256 + b) * 256 + c) * 256 + d) % 2 ^ 31 := by
        omega
      rw [hmod, if_neg h0]

/-- Witness for C10 at the payload `80 00 00 01` (reserved bit set) on stream 9,
which `load` accepts as the frame with increment 1. -/
theorem c10_reencode_clears_reserved_bit_witness :
    (WindowUpdate.encode (WindowUpdate.new 9 1) []).drop 9 =
      clearReservedBit [128, 0, 0, 1] ∧
    WindowUpdate.load (Head.new Kind.windowUpdate 0 9)
      ((WindowUpdate.encode (WindowUpdate.new 9 1) []).drop 9) =
      LoadResult.ok (WindowUpdate.new 9 1) :=
  c10_reencode_clears_reserved_bit (Head.new Kind.windowUpdate 0 9) 128 0 0 1
    (by decide) (by decide) (by decide) (by decide) (WindowUpdate.new 9 1) (by decide)

end XitcaH2
